import Mathlib

open List

/-!
Verification of the content-curation pipeline of `newsletter_bot.py`
(class `NewsletterBot`): collection, relevance scoring, curation
(dedup / filter / sort / truncate), HTML rendering and subscriber
selection, shallowly embedded in Lean.  Python floats appear only as
scores that are compared and sorted, so they are modelled by `ℚ`;
Python strings by `String`; fallible steps by explicit outcome data.
-/

/-- Embeds the Python dataclass `NewsItem` (fields `title`, `url`,
`summary`, `source`, `published_date`, `relevance_score`, `tags`). -/
structure NewsItem where
  title : String
  url : String
  summary : String
  source : String
  published_date : String
  relevance_score : ℚ
  tags : List String
deriving DecidableEq

/-- Embeds the dedup loop of `filter_and_rank_content` (lines 185-190):
`seen` is the `seen_urls` set (as the list of urls already added); an
item whose url was seen is dropped, otherwise it is appended and its
url recorded. -/
def dedupAux : List String → List NewsItem → List NewsItem
  | _, [] => []
  | seen, i :: rest =>
    if i.url ∈ seen then dedupAux seen rest
    else i :: dedupAux (i.url :: seen) rest

/-- The comparison used by `relevant_items.sort(key=lambda x: x.relevance_score, reverse=True)`:
`a` may come before `b` exactly when the score of `b` is at most the
score of `a` (descending order); a stable sort under this relation is
what the stable Python `list.sort` with `reverse=True` produces. -/
def scoreRel (a b : NewsItem) : Prop :=
  b.relevance_score ≤ a.relevance_score

instance : DecidableRel scoreRel :=
  fun a b => inferInstanceAs (Decidable (b.relevance_score ≤ a.relevance_score))

instance : IsTotal NewsItem scoreRel :=
  ⟨fun a b => le_total b.relevance_score a.relevance_score⟩

instance : IsTrans NewsItem scoreRel :=
  ⟨fun _ _ _ hab hbc => le_trans hbc hab⟩

/-- Embeds `NewsletterBot.filter_and_rank_content` (lines 182-198):
deduplicate by url (first occurrence wins), keep items with
`relevance_score >= 4.0`, stable-sort descending by score, keep the
first 15. -/
def filter_and_rank_content (news_items : List NewsItem) : List NewsItem :=
  let unique_items := dedupAux [] news_items
  let relevant_items := unique_items.filter fun i => decide ((4 : ℚ) ≤ i.relevance_score)
  (List.insertionSort scoreRel relevant_items).take 15

/-- The parsed JSON body of a successful scoring response, as read by
`analyze_relevance` (lines 172-174): both fields are optional because
`result.get` supplies defaults (`0` and `[]`) when a key is missing. -/
structure ScoreResult where
  relevance_score : Option ℚ
  tags : Option (List String)

/-- Outcome of the per-item scoring call in `analyze_relevance`:
either the whole `try` body fails (network error, malformed response,
unparsable JSON), or it yields a parsed result. -/
inductive ScoreOutcome where
  | failure
  | success (result : ScoreResult)

/-- Embeds the per-item body of the scoring loop (lines 141-178): on
success, `relevance_score` and `tags` are set from the parsed result
with defaults `0` and `[]`; on failure the handler assigns
`relevance_score = 5.0` and touches nothing else. -/
def scoreItem (item : NewsItem) : ScoreOutcome → NewsItem
  | ScoreOutcome.failure => { item with relevance_score := 5 }
  | ScoreOutcome.success r =>
      { item with relevance_score := r.relevance_score.getD 0, tags := r.tags.getD [] }

/-- Embeds `NewsletterBot.analyze_relevance` (lines 134-180).  The
first argument is the configured OpenAI API key (`none` when absent),
the second gives the outcome of the external scoring call for each
item. -/
def analyze_relevance : Option String → (NewsItem → ScoreOutcome) → List NewsItem → List NewsItem
  | none, _, news_items => news_items
  | some _, call, news_items => news_items.map fun i => scoreItem i (call i)

/-- Embeds the first block of the HTML template of
`generate_newsletter_html` (lines 204-231) up to the first use of
`current_date`. -/
def htmlHeaderIntro : String :=
  "\n        <!DOCTYPE html>\n        <html>\n        <head>\n            <meta charset=\"utf-8\">\n            <title>AI & Māori Weekly - "

/-- The template text between the two uses of `current_date`. -/
def htmlHeaderMid : String :=
  "</title>\n            <style>\n                body \x7b font-family: Arial, sans-serif; max-width: 600px; margin: 0 auto; padding: 20px; \x7d\n                .header \x7b background: linear-gradient(135deg, #1e3a8a, #7c3aed); color: white; padding: 30px; border-radius: 8px; text-align: center; \x7d\n                .article \x7b border-left: 4px solid #7c3aed; padding: 15px; margin: 20px 0; background: #f8fafc; \x7d\n                .article h3 \x7b margin-top: 0; color: #1e293b; \x7d\n                .article .meta \x7b color: #64748b; font-size: 14px; margin-bottom: 10px; \x7d\n                .tags \x7b margin-top: 10px; \x7d\n                .tag \x7b background: #e0e7ff; color: #3730a3; padding: 4px 8px; border-radius: 12px; font-size: 12px; margin-right: 5px; \x7d\n                .footer \x7b text-align: center; margin-top: 40px; padding: 20px; background: #f1f5f9; border-radius: 8px; \x7d\n            </style>\n        </head>\n        <body>\n            <div class=\"header\">\n                <h1>AI & Māori Weekly</h1>\n                <p>Artificial Intelligence insights for Māori organisations</p>\n                <p>"

/-- The template text after the second use of `current_date`. -/
def htmlHeaderTail : String :=
  "</p>\n            </div>\n            \n            <div style=\"margin: 30px 0;\">\n                <p>Kia ora! Here are this week\x27s most relevant AI developments for Māori organisations and communities.</p>\n            </div>\n        "

/-- The fixed header/banner block of the newsletter, with the current
date substituted in both places. -/
def htmlHeader (current_date : String) : String :=
  htmlHeaderIntro ++ current_date ++ htmlHeaderMid ++ current_date ++ htmlHeaderTail

/-- The heading prepended to the high-relevance bucket (line 236). -/
def topStoriesHeading : String :=
  "<h2 style=\x27color: #7c3aed; border-bottom: 2px solid #7c3aed; padding-bottom: 5px;\x27>🔥 Top Stories</h2>"

/-- The heading prepended to the remaining-items bucket (line 243). -/
def otherUpdatesHeading : String :=
  "<h2 style=\x27color: #1e3a8a; border-bottom: 2px solid #1e3a8a; padding-bottom: 5px;\x27>📰 AI News & Updates</h2>"

/-- The fixed footer block (lines 247-255). -/
def htmlFooter : String :=
  "\n            <div class=\"footer\">\n                <p>This newsletter is powered by AI content curation.</p>\n                <p>Questions or feedback? Reply to this email.</p>\n                <p><a href=\"[UNSUBSCRIBE_LINK]\">Unsubscribe</a></p>\n            </div>\n        </body>\n        </html>\n        "

/-- One tag badge, from the comprehension in `_format_article_html`
(line 261). -/
def tagSpan (tag : String) : String :=
  "<span class=\"tag\">" ++ tag ++ "</span>"

/-- Embeds `tags_html = \x27 \x27.join([...])` of line 261. -/
def tagsHtml (tags : List String) : String :=
  String.intercalate " " (tags.map tagSpan)

/-- Embeds `NewsletterBot._format_article_html` (lines 259-270); the
numeric rendering of the score is abstracted by `toString`. -/
def format_article_html (item : NewsItem) : String :=
  "\n        <div class=\"article\">\n            <h3><a href=\"" ++ item.url ++
    "\" style=\"color: #1e293b; text-decoration: none;\">" ++ item.title ++
    "</a></h3>\n            <div class=\"meta\">Source: " ++ item.source ++
    " | Relevance: " ++ toString item.relevance_score ++ "/10</div>\n            " ++
    (if item.summary = "" then "" else "<p>" ++ item.summary ++ "</p>") ++
    "\n            <div class=\"tags\">" ++ tagsHtml item.tags ++ "</div>\n        </div>\n        "

/-- Embeds `high_relevance = [item for item in news_items if item.relevance_score >= 7]`
(line 234). -/
def high_relevance (news_items : List NewsItem) : List NewsItem :=
  news_items.filter fun i => decide ((7 : ℚ) ≤ i.relevance_score)

/-- Embeds `other_items = [item for item in news_items if item.relevance_score < 7]`
(line 241). -/
def other_items (news_items : List NewsItem) : List NewsItem :=
  news_items.filter fun i => decide (i.relevance_score < 7)

/-- The successive pieces concatenated onto `html_content` by
`generate_newsletter_html` (lines 204-255): the header block, then,
when its bucket is nonempty, a section heading followed by the
formatted articles of that bucket, and finally the footer block. -/
def newsletterSegments (current_date : String) (news_items : List NewsItem) : List String :=
  [htmlHeader current_date]
    ++ (if high_relevance news_items = [] then []
        else topStoriesHeading :: (high_relevance news_items).map format_article_html)
    ++ (if other_items news_items = [] then []
        else otherUpdatesHeading :: (other_items news_items).map format_article_html)
    ++ [htmlFooter]

/-- Embeds `NewsletterBot.generate_newsletter_html`: the returned
string is the concatenation of the segments above. -/
def generate_newsletter_html (current_date : String) (news_items : List NewsItem) : String :=
  String.join (newsletterSegments current_date news_items)

/-- One entry of `self.sources[\x27websites\x27]` (lines 49-60). -/
structure WebSite where
  url : String
  selector : String
  name : String
deriving DecidableEq

/-- An anchor element extracted by the CSS selector in
`scrape_websites`: its text content and its `href` attribute
(defaulted to the empty string by `article.get(\x27href\x27, \x27\x27)`). -/
structure PageLink where
  text : String
  href : String
deriving DecidableEq

/-- The configured website sources (lines 49-60). -/
def websites : List WebSite :=
  [⟨"https://www.tepunikokiri.govt.nz", "article h2 a", "Te Puni Kōkiri"⟩,
   ⟨"https://www.digital.govt.nz", ".news-item h3 a", "Digital Government NZ"⟩]

/-- Embeds the Python `.strip()` of line 111: leading and trailing
whitespace characters are removed. -/
def pyStrip (s : String) : String :=
  ⟨((s.data.dropWhile Char.isWhitespace).reverse.dropWhile Char.isWhitespace).reverse⟩

/-- Embeds the Python `site[\x27url\x27].rstrip(\x27/\x27)` of line 116:
all trailing slash characters are removed. -/
def rstripSlashes (s : String) : String :=
  ⟨(s.data.reverse.dropWhile (fun c => c == '/')).reverse⟩

/-- Embeds the URL fixup of lines 114-116: a href whose first
character is the path-root marker `/` is prefixed with the site URL
stripped of trailing slashes; any other href is kept unchanged. -/
def resolveUrl (site_url href : String) : String :=
  if href.data.head? = some '/' then rstripSlashes site_url ++ href else href

/-- Modelled from the spec: the spec requires the `url` field to be
absolute but the repository has no code deciding absoluteness, so,
for the http(s) sites this bot scrapes, a string is taken to be an
absolute URL exactly when it starts with an explicit http or https
scheme. -/
def specAbsoluteUrl (u : String) : Bool :=
  "http://".data.isPrefixOf u.data || "https://".data.isPrefixOf u.data

/-- Embeds `NewsletterBot.scrape_websites` (lines 95-132).  `fetched`
gives, per site, the anchors extracted by the CSS selector, or `none`
when fetching or parsing raised (in which case the `except` clause
skips the whole site); at most the first 5 anchors are taken, the
title is the stripped text, and the url is resolved as in the code. -/
def scrape_websites (fetched : WebSite → Option (List PageLink)) (now : String) : List NewsItem :=
  websites.flatMap fun site =>
    match fetched site with
    | none => []
    | some links =>
        (links.take 5).map fun a =>
          { title := pyStrip a.text
            url := resolveUrl site.url a.href
            summary := ""
            source := site.name
            published_date := now
            relevance_score := 0
            tags := [] }

/-- One row of the subscribers file: pandas yields `NaN` (here `none`)
for a missing status cell; a present cell is `some` text. -/
structure SubscriberRow where
  email : String
  status : Option String
deriving DecidableEq

/-- The subscribers file as read by `pd.read_csv`: whether a `status`
column exists at all, and the rows. -/
structure SubscriberTable where
  hasStatusColumn : Bool
  rows : List SubscriberRow

/-- Embeds the recipient selection of `__main__` (lines 380-382):
`subscribers_df[subscribers_df.get(\x27status\x27, \x27active\x27) == \x27active\x27][\x27email\x27].tolist()`.
With a `status` column present, `.get` returns the column, the
comparison is row-wise and exactly the rows whose status equals
`active` are kept.  With the column absent, `.get` returns the scalar
default `\x27active\x27`, the comparison collapses to the scalar `True`,
and `subscribers_df[True]` raises `KeyError: True` (a bool scalar is
looked up as a column label), which the surrounding `except` catches;
no recipient list is ever produced on that path. -/
def active_subscribers (t : SubscriberTable) : Except String (List String) :=
  if t.hasStatusColumn then
    Except.ok ((t.rows.filter (fun r => decide (r.status = some "active"))).map
      (fun r => r.email))
  else
    Except.error "KeyError: True"

/-- First character of a string, used to separate the renderer
segments from one another. -/
def firstChar (s : String) : Option Char :=
  s.data.head?

/-- Concrete item with url `u` and score 8: the first occurrence of
url `u` in the witness list below. -/
def itemA : NewsItem := ⟨"first", "u", "", "s", "d", 8, []⟩

/-- Concrete later duplicate of url `u`, score 9. -/
def itemB : NewsItem := ⟨"second", "u", "", "s", "d", 9, []⟩

/-- Concrete item with url `v` and score 5. -/
def itemC : NewsItem := ⟨"third", "v", "", "s", "d", 5, []⟩

/-- Concrete item scoring below the 4.0 threshold. -/
def lowItem : NewsItem := ⟨"low", "w", "", "s", "d", 2, []⟩

/-- Twenty items with pairwise distinct urls, all scoring 6.0. -/
def twentyItems : List NewsItem :=
  (List.range 20).map fun n => ⟨"t", "u" ++ toString n, "", "s", "d", 6, []⟩

/-- Concrete item entering the scorer with a nonempty tag list. -/
def taggedItem : NewsItem := ⟨"tagged", "u", "", "s", "d", 0, ["kept"]⟩

/-- A fetch outcome where one configured site yields a single anchor
with a document-relative href (no leading slash). -/
def relativeLinkFetch (site : WebSite) : Option (List PageLink) :=
  if site.name = "Digital Government NZ" then some [⟨"Budget news", "news.html"⟩]
  else some []

/-- A fetch outcome where one configured site yields a single anchor
with a root-relative href. -/
def rootedLinkFetch (site : WebSite) : Option (List PageLink) :=
  if site.name = "Te Puni Kōkiri" then some [⟨"Panui", "/panui"⟩]
  else some []

/-- The item produced from `rootedLinkFetch`. -/
def rootedItem : NewsItem :=
  ⟨"Panui", "https://www.tepunikokiri.govt.nz/panui", "", "Te Puni Kōkiri", "now", 0, []⟩

/-- The dedup loop only ever drops items: its output is a sublist of
its input. -/
theorem dedupAux_sublist (seen : List String) (l : List NewsItem) :
    dedupAux seen l <+ l := by
  induction l generalizing seen with
  | nil => exact List.Sublist.refl _
  | cons i rest ih =>
    rw [dedupAux]
    split
    · exact (ih seen).cons i
    · exact (ih _).cons₂ i

/-- An item surviving the dedup loop has a url that was not in the
`seen_urls` accumulator on entry. -/
theorem mem_dedupAux_not_seen {i : NewsItem} :
    ∀ {seen : List String} {l : List NewsItem}, i ∈ dedupAux seen l → i.url ∉ seen := by
  intro seen l
  induction l generalizing seen with
  | nil => intro h; simp [dedupAux] at h
  | cons j rest ih =>
    rw [dedupAux]
    split
    · exact fun h => ih h
    · next hj =>
      intro h
      rcases List.mem_cons.mp h with rfl | h
      · exact hj
      · exact fun hs => ih h (List.mem_cons_of_mem _ hs)

/-- The urls of the dedup loop's output are pairwise distinct. -/
theorem dedupAux_urls_nodup (seen : List String) (l : List NewsItem) :
    ((dedupAux seen l).map (fun i => i.url)).Nodup := by
  induction l generalizing seen with
  | nil => simp [dedupAux]
  | cons j rest ih =>
    rw [dedupAux]
    split
    · exact ih seen
    · rw [List.map_cons, List.nodup_cons]
      refine ⟨fun hmem => ?_, ih _⟩
      rcases List.mem_map.mp hmem with ⟨i, hi, hurl⟩
      exact mem_dedupAux_not_seen hi (hurl ▸ List.mem_cons_self _ _)

/-- Every item surviving the dedup loop is the first item of the input
carrying its url. -/
theorem dedupAux_first_occurrence {i : NewsItem} :
    ∀ {seen : List String} {l : List NewsItem}, i ∈ dedupAux seen l →
      l.find? (fun j => j.url == i.url) = some i := by
  intro seen l
  induction l generalizing seen with
  | nil => intro h; simp [dedupAux] at h
  | cons j rest ih =>
    rw [dedupAux]
    split
    · next hj =>
      intro h
      have hne : j.url ≠ i.url := fun e => mem_dedupAux_not_seen h (e ▸ hj)
      rw [List.find?_cons_of_neg _ (by simpa using hne)]
      exact ih h
    · next hj =>
      intro h
      rcases List.mem_cons.mp h with rfl | h
      · rw [List.find?_cons_of_pos _ (by simp)]
      · have hni : i.url ∉ j.url :: seen := mem_dedupAux_not_seen h
        have hne : j.url ≠ i.url := fun e => hni (e ▸ List.mem_cons_self _ _)
        rw [List.find?_cons_of_neg _ (by simpa using hne)]
        exact ih h

/-- On an input whose urls are pairwise distinct and disjoint from the
accumulator, the dedup loop is the identity. -/
theorem dedupAux_eq_self :
    ∀ {seen : List String} {l : List NewsItem}, (∀ i ∈ l, i.url ∉ seen) →
      ((l.map (fun i => i.url)).Nodup) → dedupAux seen l = l := by
  intro seen l
  induction l generalizing seen with
  | nil => intro _ _; rfl
  | cons j rest ih =>
    intro hseen hnd
    rw [dedupAux, if_neg (hseen j (List.mem_cons_self _ _))]
    rw [List.map_cons, List.nodup_cons] at hnd
    refine congrArg (j :: ·) (ih ?_ hnd.2)
    intro i hi
    rw [List.mem_cons]
    rintro (e | hs)
    · exact hnd.1 (e ▸ List.mem_map_of_mem (fun i => i.url) hi)
    · exact hseen i (List.mem_cons_of_mem _ hi) hs

/-- Filtering with a predicate `p` commutes with `orderedInsert` of a
`p`-element, provided every `p`-element may precede the inserted one:
the inserted element then lands in front of all retained ones. -/
theorem filter_orderedInsert_pos (p : NewsItem → Bool) (x : NewsItem) (l : List NewsItem)
    (hx : p x = true) (h : ∀ y, p y = true → scoreRel x y) :
    (List.orderedInsert scoreRel x l).filter p = x :: l.filter p := by
  rw [List.orderedInsert_eq_take_drop, List.filter_append]
  have htake : (l.takeWhile fun b => decide ¬ scoreRel x b).filter p = [] := by
    rw [List.filter_eq_nil_iff]
    intro a ha hpa
    have hna := List.mem_takeWhile_imp ha
    rw [decide_eq_true_eq] at hna
    exact hna (h a hpa)
  rw [htake, List.filter_cons_of_pos hx, List.nil_append]
  refine congrArg (x :: ·) ?_
  conv_rhs => rw [← List.takeWhile_append_dropWhile (fun b => decide ¬ scoreRel x b) l]
  rw [List.filter_append, htake, List.nil_append]

/-- Filtering with a predicate that rejects the inserted element is
unaffected by `orderedInsert`. -/
theorem filter_orderedInsert_neg (p : NewsItem → Bool) (x : NewsItem) (l : List NewsItem)
    (hx : p x = false) :
    (List.orderedInsert scoreRel x l).filter p = l.filter p := by
  rw [List.orderedInsert_eq_take_drop, List.filter_append, List.filter_cons_of_neg (by simp [hx])]
  rw [← List.filter_append, List.takeWhile_append_dropWhile]

/-- Stability of the insertion sort used by the curator: for a
predicate selecting mutually order-indifferent elements (such as all
elements of one fixed score), sorting does not change the filtered
subsequence. -/
theorem filter_insertionSort (p : NewsItem → Bool)
    (hp : ∀ a b, p a = true → p b = true → scoreRel a b) :
    ∀ l : List NewsItem, (List.insertionSort scoreRel l).filter p = l.filter p
  | [] => rfl
  | x :: l => by
    rw [List.insertionSort]
    cases hx : p x with
    | true =>
      rw [filter_orderedInsert_pos p x _ hx (fun y hy => hp x y hx hy),
          filter_insertionSort p hp l, List.filter_cons_of_pos hx]
    | false =>
      rw [filter_orderedInsert_neg p x _ hx, filter_insertionSort p hp l,
          List.filter_cons_of_neg (by simp [hx])]

/-- The curator's output is sorted non-increasingly by score. -/
theorem curate_sorted (items : List NewsItem) :
    List.Sorted scoreRel (filter_and_rank_content items) :=
  List.Pairwise.sublist (List.take_sublist 15 _)
    (List.sorted_insertionSort scoreRel
      ((dedupAux [] items).filter fun i => decide ((4 : ℚ) ≤ i.relevance_score)))

/-- Every item of the curator's output comes from the dedup stage and
passed the relevance threshold. -/
theorem mem_curate {items : List NewsItem} {i : NewsItem}
    (h : i ∈ filter_and_rank_content items) :
    i ∈ dedupAux [] items ∧ (4 : ℚ) ≤ i.relevance_score := by
  have h1 : i ∈ List.insertionSort scoreRel
      ((dedupAux [] items).filter fun i => decide ((4 : ℚ) ≤ i.relevance_score)) :=
    (List.take_sublist 15 _).subset h
  rw [List.mem_insertionSort, List.mem_filter] at h1
  exact ⟨h1.1, by simpa using h1.2⟩

/-- The urls of the curator's output are pairwise distinct. -/
theorem curate_urls_nodup (items : List NewsItem) :
    ((filter_and_rank_content items).map (fun i => i.url)).Nodup := by
  have h0 : ((dedupAux [] items).map (fun i => i.url)).Nodup := dedupAux_urls_nodup [] items
  have h1 : (((dedupAux [] items).filter
      (fun i => decide ((4 : ℚ) ≤ i.relevance_score))).map (fun i => i.url)).Nodup :=
    List.Nodup.sublist (List.Sublist.map (fun i : NewsItem => i.url) (List.filter_sublist _)) h0
  have h2 : ((List.insertionSort scoreRel ((dedupAux [] items).filter
      (fun i => decide ((4 : ℚ) ≤ i.relevance_score)))).map (fun i => i.url)).Nodup :=
    (List.Perm.nodup_iff ((List.perm_insertionSort scoreRel _).map (fun i => i.url))).mpr h1
  exact List.Nodup.sublist (List.Sublist.map (fun i : NewsItem => i.url) (List.take_sublist 15 _)) h2

/-- The curator keeps at most 15 items. -/
theorem curate_length_le_fifteen (items : List NewsItem) :
    (filter_and_rank_content items).length ≤ 15 := by
  show ((List.insertionSort scoreRel
    ((dedupAux [] items).filter fun i => decide ((4 : ℚ) ≤ i.relevance_score))).take 15).length ≤ 15
  rw [List.length_take]
  exact min_le_left _ _

/-- The curator never grows its input. -/
theorem curate_length_le_input (items : List NewsItem) :
    (filter_and_rank_content items).length ≤ items.length := by
  have h1 : (filter_and_rank_content items).length ≤
      (List.insertionSort scoreRel
        ((dedupAux [] items).filter fun i => decide ((4 : ℚ) ≤ i.relevance_score))).length :=
    (List.take_sublist 15 _).length_le
  rw [List.length_insertionSort] at h1
  exact h1.trans ((List.filter_sublist _).length_le.trans (dedupAux_sublist [] items).length_le)

/-- An input all of whose items fall below the threshold curates to
the empty list. -/
theorem curate_all_below_empty {items : List NewsItem}
    (hall : ∀ i ∈ items, i.relevance_score < 4) :
    filter_and_rank_content items = [] := by
  have hfil : (dedupAux [] items).filter (fun i => decide ((4 : ℚ) ≤ i.relevance_score)) = [] := by
    rw [List.filter_eq_nil_iff]
    intro a ha
    have hmem : a ∈ items := (dedupAux_sublist [] items).subset ha
    simpa using not_le.mpr (hall a hmem)
  show (List.insertionSort scoreRel
    ((dedupAux [] items).filter fun i => decide ((4 : ℚ) ≤ i.relevance_score))).take 15 = []
  rw [hfil]
  rfl

/-- For each fixed score, the curator's output restricted to that
score is a subsequence of the input restricted to that score: equal
scores keep their relative input order. -/
theorem curate_stable (items : List NewsItem) (s : ℚ) :
    (filter_and_rank_content items).filter (fun i => decide (i.relevance_score = s)) <+
      items.filter (fun i => decide (i.relevance_score = s)) := by
  have h1 : (filter_and_rank_content items).filter (fun i => decide (i.relevance_score = s)) <+
      (List.insertionSort scoreRel
        ((dedupAux [] items).filter fun i => decide ((4 : ℚ) ≤ i.relevance_score))).filter
        (fun i => decide (i.relevance_score = s)) :=
    List.Sublist.filter _ (List.take_sublist 15 _)
  rw [filter_insertionSort _ (fun a b ha hb => ?_)] at h1
  · refine h1.trans (List.Sublist.trans ?_ (List.Sublist.filter _ (dedupAux_sublist [] items)))
    exact List.Sublist.filter _ (List.filter_sublist _)
  · rw [decide_eq_true_eq] at ha hb
    show b.relevance_score ≤ a.relevance_score
    rw [ha, hb]

/-- Two strings differing in their first character are distinct. -/
theorem ne_of_firstChar_ne {s t : String} (h : firstChar s ≠ firstChar t) : s ≠ t :=
  fun e => h (congrArg firstChar e)

/-- The header block starts with a newline. -/
theorem firstChar_htmlHeader (d : String) : firstChar (htmlHeader d) = some '\n' := rfl

/-- The footer block starts with a newline. -/
theorem firstChar_htmlFooter : firstChar htmlFooter = some '\n' := rfl

/-- The top-stories heading starts with an opening angle bracket. -/
theorem firstChar_topStoriesHeading : firstChar topStoriesHeading = some '<' := rfl

/-- The other-updates heading starts with an opening angle bracket. -/
theorem firstChar_otherUpdatesHeading : firstChar otherUpdatesHeading = some '<' := rfl

/-- Every formatted article block starts with a newline. -/
theorem firstChar_format_article (i : NewsItem) :
    firstChar (format_article_html i) = some '\n' := rfl

/-- When the high-relevance bucket is empty, the top-stories heading
appears nowhere among the rendered segments. -/
theorem topStoriesHeading_notin_segments (d : String) (items : List NewsItem)
    (h : high_relevance items = []) :
    topStoriesHeading ∉ newsletterSegments d items := by
  intro hmem
  unfold newsletterSegments at hmem
  rw [if_pos h] at hmem
  by_cases ho : other_items items = []
  · rw [if_pos ho] at hmem
    simp only [List.mem_append, List.mem_singleton, List.mem_cons, List.mem_map,
      List.not_mem_nil, or_false, false_or, List.append_nil, List.nil_append] at hmem
    rcases hmem with h1 | h1
    · exact ne_of_firstChar_ne
        (by rw [firstChar_topStoriesHeading, firstChar_htmlHeader]; decide) h1
    · exact ne_of_firstChar_ne
        (by rw [firstChar_topStoriesHeading, firstChar_htmlFooter]; decide) h1
  · rw [if_neg ho] at hmem
    simp only [List.mem_append, List.mem_singleton, List.mem_cons, List.mem_map,
      List.not_mem_nil, or_false, false_or, List.append_nil, List.nil_append] at hmem
    rcases hmem with (h1 | h1 | ⟨i, _, h1⟩) | h1
    · exact ne_of_firstChar_ne
        (by rw [firstChar_topStoriesHeading, firstChar_htmlHeader]; decide) h1
    · exact (by decide : topStoriesHeading ≠ otherUpdatesHeading) h1
    · exact ne_of_firstChar_ne
        (by rw [firstChar_format_article, firstChar_topStoriesHeading]; decide) h1
    · exact ne_of_firstChar_ne
        (by rw [firstChar_topStoriesHeading, firstChar_htmlFooter]; decide) h1

/-- When the other-updates bucket is empty, the other-updates heading
appears nowhere among the rendered segments. -/
theorem otherUpdatesHeading_notin_segments (d : String) (items : List NewsItem)
    (h : other_items items = []) :
    otherUpdatesHeading ∉ newsletterSegments d items := by
  intro hmem
  unfold newsletterSegments at hmem
  rw [if_pos h] at hmem
  by_cases hh : high_relevance items = []
  · rw [if_pos hh] at hmem
    simp only [List.mem_append, List.mem_singleton, List.mem_cons, List.mem_map,
      List.not_mem_nil, or_false, false_or, List.append_nil, List.nil_append] at hmem
    rcases hmem with h1 | h1
    · exact ne_of_firstChar_ne
        (by rw [firstChar_otherUpdatesHeading, firstChar_htmlHeader]; decide) h1
    · exact ne_of_firstChar_ne
        (by rw [firstChar_otherUpdatesHeading, firstChar_htmlFooter]; decide) h1
  · rw [if_neg hh] at hmem
    simp only [List.mem_append, List.mem_singleton, List.mem_cons, List.mem_map,
      List.not_mem_nil, or_false, false_or, List.append_nil, List.nil_append] at hmem
    rcases hmem with (h1 | h1 | ⟨i, _, h1⟩) | h1
    · exact ne_of_firstChar_ne
        (by rw [firstChar_otherUpdatesHeading, firstChar_htmlHeader]; decide) h1
    · exact (by decide : otherUpdatesHeading ≠ topStoriesHeading) h1
    · exact ne_of_firstChar_ne
        (by rw [firstChar_format_article, firstChar_otherUpdatesHeading]; decide) h1
    · exact ne_of_firstChar_ne
        (by rw [firstChar_otherUpdatesHeading, firstChar_htmlFooter]; decide) h1

/-- When the high-relevance bucket is nonempty, the rendered document
contains, contiguously and in order, the top-stories heading followed
by exactly the formatted high-relevance articles. -/
theorem topSection_infix (d : String) (items : List NewsItem)
    (h : high_relevance items ≠ []) :
    topStoriesHeading :: (high_relevance items).map format_article_html <:+:
      newsletterSegments d items := by
  unfold newsletterSegments
  rw [if_neg h]
  exact ⟨[htmlHeader d],
    (if other_items items = [] then []
     else otherUpdatesHeading :: (other_items items).map format_article_html) ++ [htmlFooter],
    by simp⟩

/-- When the other-updates bucket is nonempty, the rendered document
contains, contiguously and in order, the other-updates heading
followed by exactly the formatted other-updates articles. -/
theorem otherSection_infix (d : String) (items : List NewsItem)
    (h : other_items items ≠ []) :
    otherUpdatesHeading :: (other_items items).map format_article_html <:+:
      newsletterSegments d items := by
  unfold newsletterSegments
  rw [if_neg h]
  exact ⟨[htmlHeader d] ++
    (if high_relevance items = [] then []
     else topStoriesHeading :: (high_relevance items).map format_article_html),
    [htmlFooter], by simp⟩

/-- C1: `filter_and_rank_content` deduplicates by url with the first
occurrence winning in input-scan order: the urls of the output are
pairwise distinct, and every output item is exactly the first input
item bearing its url, all fields unchanged — so every later item
sharing that url has been dropped. -/
theorem curate_dedup_first_occurrence (items : List NewsItem) :
    ((filter_and_rank_content items).map (fun i => i.url)).Nodup ∧
    ∀ i ∈ filter_and_rank_content items,
      items.find? (fun j => j.url == i.url) = some i :=
  ⟨curate_urls_nodup items, fun _ hi => dedupAux_first_occurrence (mem_curate hi).1⟩

/-- Witness for C1: in a list where url `u` occurs twice, the survivor
of url `u` is the first-occurring item. -/
theorem curate_dedup_first_occurrence_witness :
    [itemA, itemB, itemC].find? (fun j => j.url == itemA.url) = some itemA :=
  (curate_dedup_first_occurrence [itemA, itemB, itemC]).2 itemA (by decide)

/-- C2: every item in the output of `filter_and_rank_content` has
relevance score at least 4.0, and an input consisting entirely of
below-threshold items yields the empty list. -/
theorem curate_threshold (items : List NewsItem) :
    (∀ i ∈ filter_and_rank_content items, (4 : ℚ) ≤ i.relevance_score) ∧
    ((∀ i ∈ items, i.relevance_score < 4) → filter_and_rank_content items = []) :=
  ⟨fun _ hi => (mem_curate hi).2, curate_all_below_empty⟩

/-- Witness for C2: a surviving concrete item scores at least 4, and a
concrete all-below-threshold input curates to the empty list. -/
theorem curate_threshold_witness :
    (4 : ℚ) ≤ itemC.relevance_score ∧ filter_and_rank_content [lowItem] = [] :=
  ⟨(curate_threshold [itemA, itemB, itemC]).1 itemC (by decide),
   (curate_threshold [lowItem]).2 (by decide)⟩

/-- C3: the output of `filter_and_rank_content` is sorted
non-increasingly by relevance score, and the sort is stable: for each
fixed score, the output items of that score form a subsequence of the
input items of that score, hence keep their relative input order. -/
theorem curate_sorted_and_stable (items : List NewsItem) :
    List.Sorted scoreRel (filter_and_rank_content items) ∧
    ∀ s : ℚ,
      (filter_and_rank_content items).filter (fun i => decide (i.relevance_score = s)) <+
        items.filter (fun i => decide (i.relevance_score = s)) :=
  ⟨curate_sorted items, curate_stable items⟩

/-- C4: the output of `filter_and_rank_content` has length at most 15
and at most the input length; the empty input yields the empty output,
and twenty distinct-url items all scoring 6.0 yield exactly 15. -/
theorem curate_length_bound :
    (∀ items : List NewsItem,
      (filter_and_rank_content items).length ≤ 15 ∧
      (filter_and_rank_content items).length ≤ items.length) ∧
    filter_and_rank_content [] = [] ∧
    (filter_and_rank_content twentyItems).length = 15 :=
  ⟨fun items => ⟨curate_length_le_fifteen items, curate_length_le_input items⟩, rfl, by decide⟩

/-- C5 counterexample: an item carrying a nonempty tag list whose
scoring call fails leaves `analyze_relevance` with its tags intact,
not with `tags == []` — the exception handler of lines 176-178 assigns
only `relevance_score`. -/
theorem analyze_relevance_tags_not_cleared :
    ¬ ∀ i ∈ analyze_relevance (some "key") (fun _ => ScoreOutcome.failure) [taggedItem],
        i.tags = [] := by decide

/-- C5 (amended): items are scored independently (the output is the
item-wise map of the per-item outcome), and an item whose scoring call
fails ends with `relevance_score = 5.0` and its tags unchanged — in
particular still empty whenever they were empty before scoring, as
they are for every collector-produced item. -/
theorem analyze_relevance_failure_fallback (key : String) (call : NewsItem → ScoreOutcome)
    (news_items : List NewsItem) (i : NewsItem) :
    analyze_relevance (some key) call news_items =
      news_items.map (fun j => scoreItem j (call j)) ∧
    scoreItem i ScoreOutcome.failure = { i with relevance_score := 5 } ∧
    (scoreItem i ScoreOutcome.failure).tags = i.tags :=
  ⟨rfl, rfl, rfl⟩

/-- C6: with no scoring-service credential configured,
`analyze_relevance` returns its input list unchanged, every field
included, whatever the outcomes of the (never-made) calls would be. -/
theorem analyze_relevance_no_key_passthrough (call : NewsItem → ScoreOutcome)
    (news_items : List NewsItem) :
    analyze_relevance none call news_items = news_items := rfl

/-- C7: the renderer puts every item scoring at least 7 into the
high-relevance bucket and every item scoring below 7 into the
other-updates bucket, both buckets preserving input order; a nonempty
bucket is rendered as its heading followed contiguously by exactly its
formatted articles, an empty bucket leaves its heading out of the
document entirely, and the empty input renders to header and footer
alone. -/
theorem render_partition_sections (current_date : String) (news_items : List NewsItem) :
    (∀ i ∈ news_items,
        ((7 : ℚ) ≤ i.relevance_score → i ∈ high_relevance news_items) ∧
        (i.relevance_score < 7 → i ∈ other_items news_items)) ∧
    high_relevance news_items <+ news_items ∧
    other_items news_items <+ news_items ∧
    (high_relevance news_items ≠ [] →
      topStoriesHeading :: (high_relevance news_items).map format_article_html <:+:
        newsletterSegments current_date news_items) ∧
    (other_items news_items ≠ [] →
      otherUpdatesHeading :: (other_items news_items).map format_article_html <:+:
        newsletterSegments current_date news_items) ∧
    (high_relevance news_items = [] →
      topStoriesHeading ∉ newsletterSegments current_date news_items) ∧
    (other_items news_items = [] →
      otherUpdatesHeading ∉ newsletterSegments current_date news_items) ∧
    newsletterSegments current_date [] = [htmlHeader current_date, htmlFooter] := by
  refine ⟨fun i hi => ⟨fun h7 => ?_, fun hlt => ?_⟩,
    List.filter_sublist _, List.filter_sublist _,
    topSection_infix current_date news_items,
    otherSection_infix current_date news_items,
    topStoriesHeading_notin_segments current_date news_items,
    otherUpdatesHeading_notin_segments current_date news_items, rfl⟩
  · exact List.mem_filter.mpr ⟨hi, by simpa using h7⟩
  · exact List.mem_filter.mpr ⟨hi, by simpa using hlt⟩

/-- Witness for C7: with no items the top-stories heading is absent
from the rendered segments, and with one item scoring 8 the document
contains the top-stories section heading followed by that article. -/
theorem render_partition_sections_witness :
    topStoriesHeading ∉ newsletterSegments "June 01, 2025" [] ∧
    topStoriesHeading :: (high_relevance [itemA]).map format_article_html <:+:
      newsletterSegments "June 01, 2025" [itemA] :=
  ⟨(render_partition_sections "June 01, 2025" []).2.2.2.2.2.1 rfl,
   (render_partition_sections "June 01, 2025" [itemA]).2.2.2.1 (by decide)⟩

/-- A string beginning with the https scheme stays an absolute URL
after appending any suffix. -/
theorem specAbsoluteUrl_append_https (pre post : String)
    (h : "https://".data.isPrefixOf pre.data = true) :
    specAbsoluteUrl (pre ++ post) = true := by
  unfold specAbsoluteUrl
  rw [Bool.or_eq_true]
  right
  rw [List.isPrefixOf_iff_prefix] at h ⊢
  rw [String.data_append]
  exact h.trans (List.prefix_append _ _)

/-- C8 counterexample: a configured site answering with a
document-relative href (no leading slash) produces an item whose url
is not absolute — line 115 only rewrites hrefs starting with `/`. -/
theorem scrape_websites_relative_url_not_absolute :
    ¬ ∀ i ∈ scrape_websites relativeLinkFetch "now", specAbsoluteUrl i.url = true := by decide

/-- C8 (amended): every item emitted by website-mode collection
carries `resolveUrl site.url href` for some extracted anchor of its
site; an href starting with the path-root marker `/` is prefixed with
the site URL (stripped of trailing slashes), which for both configured
sites yields an absolute URL — but an href not starting with `/` is
emitted unchanged and need not be absolute. -/
theorem scrape_websites_url_resolution :
    (∀ (fetched : WebSite → Option (List PageLink)) (now : String) (i : NewsItem),
        i ∈ scrape_websites fetched now →
        ∃ site ∈ websites, ∃ links, fetched site = some links ∧
          ∃ a ∈ links.take 5, i.url = resolveUrl site.url a.href) ∧
    (∀ site ∈ websites, ∀ href : String, href.data.head? = some '/' →
        specAbsoluteUrl (resolveUrl site.url href) = true) := by
  constructor
  · intro fetched now i hi
    unfold scrape_websites at hi
    rw [List.mem_flatMap] at hi
    obtain ⟨site, hsite, hmem⟩ := hi
    refine ⟨site, hsite, ?_⟩
    cases hf : fetched site with
    | none => rw [hf] at hmem; cases hmem
    | some links =>
      rw [hf] at hmem
      obtain ⟨a, ha, rfl⟩ := List.mem_map.mp hmem
      exact ⟨links, rfl, a, ha, rfl⟩
  · intro site hsite href hhead
    rw [resolveUrl, if_pos hhead]
    rcases List.mem_cons.mp hsite with rfl | hsite
    · exact specAbsoluteUrl_append_https _ href (by decide)
    rcases List.mem_cons.mp hsite with rfl | hsite
    · exact specAbsoluteUrl_append_https _ href (by decide)
    cases hsite

/-- Witness for C8: the item scraped from a root-relative href on the
first configured site has the resolved url, and resolving a
root-relative href against the second configured site yields an
absolute URL. -/
theorem scrape_websites_url_resolution_witness :
    (∃ site ∈ websites, ∃ links, rootedLinkFetch site = some links ∧
      ∃ a ∈ links.take 5, rootedItem.url = resolveUrl site.url a.href) ∧
    specAbsoluteUrl (resolveUrl "https://www.digital.govt.nz" "/news") = true :=
  ⟨scrape_websites_url_resolution.1 rootedLinkFetch "now" rootedItem (by decide),
   scrape_websites_url_resolution.2
     ⟨"https://www.digital.govt.nz", ".news-item h3 a", "Digital Government NZ"⟩
     (by decide) "/news" rfl⟩

/-- C9: with a `status` column present, exactly the rows whose status
equals `active` become recipients (3 rows with one `inactive` give 2
recipients); with the column absent, the selection raises
`KeyError: True` instead of treating every row as active — evaluated
here at both inputs. -/
theorem active_subscribers_eval :
    active_subscribers ⟨true, [⟨"a@example.com", some "active"⟩,
      ⟨"b@example.com", some "active"⟩, ⟨"c@example.com", some "inactive"⟩]⟩ =
      Except.ok ["a@example.com", "b@example.com"] ∧
    active_subscribers ⟨false, [⟨"a@example.com", none⟩, ⟨"b@example.com", none⟩]⟩ =
      Except.error "KeyError: True" :=
  ⟨rfl, rfl⟩

/-- C10: the curator is idempotent — its output is already
url-deduplicated, above threshold, sorted and within the length bound,
so a second application changes nothing. -/
theorem curate_idempotent (items : List NewsItem) :
    filter_and_rank_content (filter_and_rank_content items) = filter_and_rank_content items := by
  have hnd := curate_urls_nodup items
  have h1 : dedupAux [] (filter_and_rank_content items) = filter_and_rank_content items :=
    dedupAux_eq_self (fun i _ => List.not_mem_nil _) hnd
  have h2 : (filter_and_rank_content items).filter
      (fun i => decide ((4 : ℚ) ≤ i.relevance_score)) = filter_and_rank_content items :=
    List.filter_eq_self.mpr fun a ha => by simpa using (mem_curate ha).2
  have h3 : List.insertionSort scoreRel (filter_and_rank_content items) =
      filter_and_rank_content items := (curate_sorted items).insertionSort_eq
  have h4 : (filter_and_rank_content items).take 15 = filter_and_rank_content items :=
    List.take_of_length_le (curate_length_le_fifteen items)
  show (List.insertionSort scoreRel ((dedupAux [] (filter_and_rank_content items)).filter
    (fun i => decide ((4 : ℚ) ≤ i.relevance_score)))).take 15 = filter_and_rank_content items
  rw [h1, h2, h3, h4]
